import Mathlib

/-!
# Verification of the DefomAI access-gating code

Shallow embedding of the AI-access gating logic of the DefomAI repository:
the Postgres functions (`check_ai_access`, `generate_activation_code`,
`execute_sql`), the two access-control tables (`ai_access_status`,
`ai_activation_codes`), the React gate components (`AIAccessCheck` in its
three variants, `DashboardActivation`), the activation form
(`ActivateAIForm`) and the model-selection hook (`_use-model-selection.ts`).

Conventions of the embedding:
* SQL `uuid` values are modelled as `Nat` identifiers, `timestamptz` as `Nat`.
* SQL `text` values that the claims inspect character by character
  (activation codes) are modelled as `List Char`; other text as `String`.
* `auth.users.raw_user_meta_data->>'is_admin' = 'true'` is modelled as a
  boolean field `is_admin` on the user row.
* plpgsql functions are pure state transformers `DB → ... → result × DB`;
  a function whose body performs no writes returns its input `DB` unchanged.
-/

namespace DefomAI

/-- A row of `auth.users`, reduced to the columns the gating code reads:
the id and whether `raw_user_meta_data->>'is_admin' = 'true'`. -/
structure UserRow where
  id : Nat
  is_admin : Bool
deriving DecidableEq, Repr

/-- A row of `public.ai_access_status` (table created in the access-status
migration: `id` primary key, `user_id` UNIQUE, three boolean flags, a status
label and a message/code pair; the audit timestamps `created_at`/`updated_at`
are carried but never read by the verified operations). -/
structure AccessRow where
  id : Nat
  user_id : Nat
  has_access : Bool
  is_suspended : Bool
  is_blocked : Bool
  status : String
  message : Option String
  code_value : Option String
  created_at : Nat
  updated_at : Nat
deriving DecidableEq, Repr

/-- A row of `public.ai_activation_codes` as created by the bootstrap SQL:
`id` primary key, the code text, active/claimed flags, the generating admin
and the (optional) claimant with claim time. -/
structure CodeRow where
  id : Nat
  code_value : List Char
  is_active : Bool
  created_at : Nat
  generated_by_admin_id : Option Nat
  is_claimed : Bool
  claimed_by_user_id : Option Nat
  claimed_at : Option Nat
deriving DecidableEq, Repr

/-- The database state visible to the gating SQL: the user table and the two
access-control tables. -/
structure DB where
  users : List UserRow
  access : List AccessRow
  codes : List CodeRow
deriving DecidableEq, Repr

/-- One result row of `check_ai_access` (the `RETURNS TABLE` shape). -/
structure CheckResult where
  has_access : Bool
  is_suspended : Bool
  is_blocked : Bool
  status : String
  message : Option String
  code_value : Option String
deriving DecidableEq, Repr

/-- The admin test of `check_ai_access`:
`EXISTS (SELECT 1 FROM auth.users WHERE id = input_user_id AND
raw_user_meta_data->>'is_admin' = 'true')`. -/
def isAdminUser (db : DB) (uid : Nat) : Bool :=
  db.users.any (fun u => u.id == uid && u.is_admin)

/-- Projection of an `ai_access_status` row to the columns selected by
`check_ai_access`. -/
def AccessRow.toResult (r : AccessRow) : CheckResult :=
  ⟨r.has_access, r.is_suspended, r.is_blocked, r.status, r.message, r.code_value⟩

/-- `public.check_ai_access(input_user_id UUID)` as recreated by the fixing
migration (same branch logic as the original definition): admins get the
fixed admin row; otherwise the matching `ai_access_status` rows are selected,
`UNION ALL` a default `no_access` row guarded by `NOT EXISTS`, with `LIMIT 1`
applied to the union.  The function body contains no INSERT/UPDATE/DELETE,
so the database is returned unchanged. -/
def check_ai_access (db : DB) (input_user_id : Nat) : List CheckResult × DB :=
  if isAdminUser db input_user_id then
    ([⟨true, false, false, "admin", some "Admin access granted", none⟩], db)
  else
    let matching := (db.access.filter (fun r => r.user_id == input_user_id)).map
      AccessRow.toResult
    let defaults :=
      if db.access.any (fun r => r.user_id == input_user_id) then ([] : List CheckResult)
      else [⟨false, false, false, "no_access",
             some "No AI access. Please use an activation code.", none⟩]
    ((matching ++ defaults).take 1, db)

/-- The lowercase hexadecimal alphabet of `md5(...)` output. -/
def hexDigits : List Char := "0123456789abcdef".toList

/-- `public.generate_activation_code(admin_id uuid)`.
`md5(random()::text)` is modelled by the parameter `md5hex` (a 32-character
lowercase hex string), `gen_random_uuid()` by `new_id` and `now()` by `now`.
`upper(substring(md5hex from 1 for 16))` is `(md5hex.take 16).map Char.toUpper`.
The `INSERT` is subject to the table's `id` primary key: on a key collision
Postgres raises, the handler re-raises `Failed to generate activation code`
and the table is left unchanged; this is the `.error` branch. -/
def generate_activation_code (db : DB) (admin_id : Nat) (md5hex : List Char)
    (new_id : Nat) (now : Nat) : Except String (List Char) × DB :=
  let code_value := (md5hex.take 16).map Char.toUpper
  if db.codes.any (fun c => c.id == new_id) then
    (.error "Failed to generate activation code: duplicate key", db)
  else
    (.ok code_value,
     { db with codes := db.codes ++
        [⟨new_id, code_value, true, now, some admin_id, false, none, none⟩] })

/-! ## `execute_sql` -/

/-- A jsonb value (the `params jsonb` argument and the returned document). -/
inductive Jsonb where
  | null : Jsonb
  | bool : Bool → Jsonb
  | num : Int → Jsonb
  | str : String → Jsonb
  | arr : List Jsonb → Jsonb
  | obj : List (String × Jsonb) → Jsonb

mutual

/-- The text rendering a jsonb value receives when a plpgsql `text` variable
is assigned from it (`param_values[i+1] := params->i` uses the jsonb output
form, so a JSON string keeps its double quotes; escaping of special
characters inside strings is elided). -/
def renderJsonb : Jsonb → String
  | .null => "null"
  | .bool true => "true"
  | .bool false => "false"
  | .num n => toString n
  | .str s => "\"" ++ s ++ "\""
  | .arr xs => "[" ++ renderJsonbList xs ++ "]"
  | .obj kvs => "\x7b" ++ renderJsonbObj kvs ++ "\x7d"

/-- Comma-separated rendering of a JSON array body. -/
def renderJsonbList : List Jsonb → String
  | [] => ""
  | [x] => renderJsonb x
  | x :: xs => renderJsonb x ++ "," ++ renderJsonbList xs

/-- Comma-separated rendering of a JSON object body. -/
def renderJsonbObj : List (String × Jsonb) → String
  | [] => ""
  | [(k, v)] => "\"" ++ k ++ "\":" ++ renderJsonb v
  | (k, v) :: kvs => "\"" ++ k ++ "\":" ++ renderJsonb v ++ "," ++ renderJsonbObj kvs

end

/-- A value bound to a query placeholder by `EXECUTE ... USING`: either a
`text` scalar or a `text[]` array (`none` components are SQL NULLs; a `none`
array is an SQL NULL array, the value of an uninitialised plpgsql variable). -/
inductive SqlValue where
  | text : Option String → SqlValue
  | textArray : Option (List (Option String)) → SqlValue
deriving DecidableEq, Repr

/-- An SQL error: `SQLERRM` and the `SQLSTATE` code. -/
structure SqlError where
  msg : String
  state : String
deriving DecidableEq, Repr

/-- The semantics of a dynamic SQL statement, as a function from the list of
values bound by `EXECUTE ... USING` (position `i` of the list is placeholder
`$(i+1)`) to either the single jsonb result captured by `INTO` or an SQL
error. -/
def SqlQuery : Type := List SqlValue → Except SqlError Jsonb

/-- `public.execute_sql(query text, params jsonb)`.  When `params` is a JSON
array its elements are copied into the text array `param_values`; otherwise
`param_values` keeps its initial NULL.  The query is then run by
`EXECUTE sql_statement INTO result USING param_values`: the single expression
`param_values` is the single `USING` argument, so the whole array is bound to
placeholder `$1` and no further placeholder is bound.  Any error is caught by
the `WHEN OTHERS` handler and returned as
`jsonb_build_object('error', SQLERRM, 'detail', SQLSTATE)`. -/
def execute_sql (query : SqlQuery) (params : Jsonb) : Jsonb :=
  let param_values : Option (List (Option String)) :=
    match params with
    | .arr xs => some (xs.map (fun x => some (renderJsonb x)))
    | _ => none
  match query [SqlValue.textArray param_values] with
  | .ok r => r
  | .error e => Jsonb.obj [("error", .str e.msg), ("detail", .str e.state)]

/-! ## Frontend gate components

The effect body of each gate component is modelled as a pure function of
its inputs: the signed-in user's metadata, the session token returned by
`supabase.auth.getSession()`, the outcome of the single `fetch` to the
check endpoint, the prior `localStorage` contents and the mount time
`now = Date.now()`.  The result records the final `hasAIAccess` React
state, the final `accessStatus` state (second variant only), the final
`localStorage` contents and the number of network requests made to the
check endpoint. -/

/-- The fields of `user.app_metadata` read by the gate components. -/
structure UserMeta where
  is_admin : Bool
  has_ai_access : Bool
deriving DecidableEq, Repr

/-- The `AIAccessStatus` JSON payload of the check endpoint, as typed in the
second variant of `AIAccessCheck`. -/
structure AccessPayload where
  has_access : Bool
  is_suspended : Bool
  is_blocked : Bool
  message : String
  status : String
  code : Option String
deriving DecidableEq, Repr

/-- Outcome of the `fetch` to `/api/check-ai-access`: an OK response with a
parsed JSON body, a non-OK response, or a thrown exception (network failure
or a `json()` failure). -/
inductive FetchOutcome where
  | ok : AccessPayload → FetchOutcome
  | httpError : FetchOutcome
  | threw : FetchOutcome
deriving DecidableEq, Repr

/-- The `localStorage` keys the gate components use: `aiAccessStatus` (a
string, `'true'` or `'false'` when written by the components) and
`aiAccessTimestamp` (written as `Date.now().toString()`, modelled parsed). -/
structure LocalStore where
  aiAccessStatus : Option String
  aiAccessTimestamp : Option Nat
deriving DecidableEq, Repr

/-- Final state of one run of a gate component's effect. -/
structure GateResult where
  hasAIAccess : Option Bool
  accessStatus : Option AccessPayload
  store : LocalStore
  fetchCount : Nat
deriving DecidableEq, Repr

/-- `CACHE_DURATION = 5 * 60 * 1000` (five minutes in milliseconds). -/
def CACHE_DURATION : Nat := 5 * 60 * 1000

/-- JavaScript truthiness of an optional string (absent and `''` are falsy). -/
def jsTruthy (s : Option String) : Bool :=
  match s with
  | none => false
  | some s => !(s == "")

/-- `cachedTimestamp && (now - parseInt(cachedTimestamp)) < CACHE_DURATION`:
the stored timestamp exists and is less than five minutes old.  (JS number
subtraction can go negative where `Nat` subtraction truncates to `0`; both
sides of the comparison with `CACHE_DURATION` agree in that case.) -/
def tsFresh (ls : LocalStore) (now : Nat) : Bool :=
  match ls.aiAccessTimestamp with
  | none => false
  | some ts => now - ts < CACHE_DURATION

/-- The outer cache test of the caching variant of `AIAccessCheck`:
`cachedAccessStatus && cachedTimestamp && (now - parseInt(cachedTimestamp)) <
CACHE_DURATION`. -/
def cacheFresh (ls : LocalStore) (now : Nat) : Bool :=
  jsTruthy ls.aiAccessStatus && tsFresh ls now

/-- First variant of `AIAccessCheck` (the file's first copy): on mount both
cache keys are removed ("Clear any existing cached access status to force
verification"), then: no user → stop; admin → access granted without any
request; no token → no access without any request; otherwise one `fetch`
to the backend check URL, an OK response meaning access and any other
response or an exception meaning no access (the catch block writes no
cache entry). -/
def aiAccessCheck_v1 (user : Option UserMeta) (token : Option String)
    (outcome : FetchOutcome) ( _ls : LocalStore) (now : Nat) : GateResult :=
  let ls0 : LocalStore := ⟨none, none⟩
  match user with
  | none => ⟨none, none, ls0, 0⟩
  | some u =>
    if u.is_admin then ⟨some true, none, ⟨some "true", some now⟩, 0⟩
    else
      match token with
      | none => ⟨some false, none, ⟨some "false", some now⟩, 0⟩
      | some _ =>
        match outcome with
        | .ok _ => ⟨some true, none, ⟨some "true", some now⟩, 1⟩
        | .httpError => ⟨some false, none, ⟨some "false", some now⟩, 1⟩
        | .threw => ⟨some false, none, ls0, 1⟩

/-- Second variant of `AIAccessCheck` (the file's second copy): same control
flow as the first variant, but an OK response's JSON body is parsed as an
`AIAccessStatus` payload, `hasAIAccess` is set to its `has_access` field and
the payload is kept in the `accessStatus` state. -/
def aiAccessCheck_v2 (user : Option UserMeta) (token : Option String)
    (outcome : FetchOutcome) ( _ls : LocalStore) (now : Nat) : GateResult :=
  let ls0 : LocalStore := ⟨none, none⟩
  match user with
  | none => ⟨none, none, ls0, 0⟩
  | some u =>
    if u.is_admin then ⟨some true, none, ⟨some "true", some now⟩, 0⟩
    else
      match token with
      | none => ⟨some false, none, ⟨some "false", some now⟩, 0⟩
      | some _ =>
        match outcome with
        | .ok p =>
          ⟨some p.has_access, some p,
           ⟨some (if p.has_access then "true" else "false"), some now⟩, 1⟩
        | .httpError => ⟨some false, none, ⟨some "false", some now⟩, 1⟩
        | .threw => ⟨some false, none, ls0, 1⟩

/-- Third variant of `AIAccessCheck` (the file's third copy, the caching
one): if a truthy cached status with a fresh timestamp exists, the decision
is `cachedAccessStatus === 'true'` with no network request and the cache
untouched; otherwise the check runs: admin → access; a user whose
`app_metadata.has_ai_access` is set and whose cached status is a fresh
`'true'` → access without a request; no token → no access; otherwise one
`fetch`, an OK response meaning access. -/
def aiAccessCheck_v3 (user : Option UserMeta) (token : Option String)
    (outcome : FetchOutcome) (ls : LocalStore) (now : Nat) : GateResult :=
  if cacheFresh ls now then
    ⟨some (ls.aiAccessStatus == some "true"), none, ls, 0⟩
  else
    match user with
    | none => ⟨none, none, ls, 0⟩
    | some u =>
      if u.is_admin then ⟨some true, none, ⟨some "true", some now⟩, 0⟩
      else if u.has_ai_access && ls.aiAccessStatus == some "true" && tsFresh ls now then
        ⟨some true, none, ls, 0⟩
      else
        match token with
        | none => ⟨some false, none, ⟨some "false", some now⟩, 0⟩
        | some _ =>
          match outcome with
          | .ok _ => ⟨some true, none, ⟨some "true", some now⟩, 1⟩
          | .httpError => ⟨some false, none, ⟨some "false", some now⟩, 1⟩
          | .threw => ⟨some false, none, ls, 1⟩

/-- `DashboardActivation` (in `_use-model-selection.ts`): both cache keys are
removed on mount and never written again; no user → stop; admin → access
without a request; no token → no access without a request; otherwise one
`fetch`, an OK response granting access exactly when the body's
`has_access === true`. -/
def dashboardActivation (user : Option UserMeta) (token : Option String)
    (outcome : FetchOutcome) ( _ls : LocalStore) : GateResult :=
  let ls0 : LocalStore := ⟨none, none⟩
  match user with
  | none => ⟨none, none, ls0, 0⟩
  | some u =>
    if u.is_admin then ⟨some true, none, ls0, 0⟩
    else
      match token with
      | none => ⟨some false, none, ls0, 0⟩
      | some _ =>
        match outcome with
        | .ok p => ⟨some p.has_access, none, ls0, 1⟩
        | .httpError => ⟨some false, none, ls0, 1⟩
        | .threw => ⟨some false, none, ls0, 1⟩

/-- What a gate component renders once loading ends. -/
inductive GateRender where
  | children : GateRender
  | fallback : GateRender
deriving DecidableEq, Repr

/-- The render decision shared by all gate components: `if (hasAIAccess)`
shows the protected children, anything else shows a fallback view (the
activation form or a blocked/suspended alert). -/
def renderGate (hasAIAccess : Option Bool) : GateRender :=
  if hasAIAccess == some true then .children else .fallback

/-! ## `ActivateAIForm` -/

/-- JavaScript `a || b` on an optional string: the fallback is used when the
value is absent or the empty string (both falsy). -/
def jsOr (m : Option String) (d : String) : String :=
  match m with
  | none => d
  | some s => if s == "" then d else s

/-- Outcome of the `fetch` to `/api/activate-ai` followed by
`response.json()`: a parsed body with optional `success` and `message`
fields, or a thrown exception. -/
inductive ActivateOutcome where
  | ok : Option Bool → Option String → ActivateOutcome
  | threw : ActivateOutcome
deriving DecidableEq, Repr

/-- A toast notification raised by the form. -/
inductive Toast where
  | success : String → Toast
  | error : String → Toast
deriving DecidableEq, Repr

/-- Final state of one `activateAI` submission: the `success` and `error`
React states, the toasts shown, and the number of requests made to the
activation endpoint. -/
structure FormResult where
  success : Bool
  error : Option String
  toasts : List Toast
  fetchCount : Nat
deriving DecidableEq, Repr

/-- `activateAI` of `ActivateAIForm`: a missing session token throws before
the request and is caught (generic error message and error toast, no
request); an exception from the request or `json()` is caught the same way
after one request; otherwise a truthy `data.success` gives the success state
and a success toast, and anything else sets
`data.message || 'Failed to activate AI access'` as the error and shows it
as an error toast.  No branch retries the request. -/
def activateAI (token : Option String) (outcome : ActivateOutcome) : FormResult :=
  match token with
  | none =>
    ⟨false, some "An error occurred. Please try again.",
     [.error "An error occurred. Please try again."], 0⟩
  | some _ =>
    match outcome with
    | .threw =>
      ⟨false, some "An error occurred. Please try again.",
       [.error "An error occurred. Please try again."], 1⟩
    | .ok s m =>
      if s == some true then
        ⟨true, none, [.success "AI access activated successfully!"], 1⟩
      else
        ⟨false, some (jsOr m "Failed to activate AI access"),
         [.error (jsOr m "Failed to activate AI access")], 1⟩

/-! ## Model selection (`_use-model-selection.ts`, `types/model.ts`) -/

/-- Subscription status values of the auth context. -/
inductive SubStatus where
  | active | inactive | trial | expired | canceled
deriving DecidableEq, Repr

/-- A model option (`types/model.ts`), reduced to the fields the selection
logic reads; the optional performance data is never consulted by
`canAccessModel` or the selection effect and is omitted. -/
structure ModelOption where
  id : String
  label : String
  requiresSubscription : Bool
  capabilities : List String
deriving DecidableEq, Repr

/-- `DEFAULT_MODEL` of `types/model.ts`. -/
def DEFAULT_MODEL : String := "openrouter/mistralai/mistral-7b-instruct:free"

/-- `MODEL_OPTIONS` of `types/model.ts` (ids, labels, subscription flags and
capabilities as listed there). -/
def MODEL_OPTIONS : List ModelOption :=
  [⟨"openrouter/mistralai/mistral-7b-instruct:free", "Mistral 7B", false,
    ["text", "chat"]⟩,
   ⟨"openrouter/deepseek/deepseek-chat:free", "DeepSeek Chat", true,
    ["text", "chat", "code", "image_analysis"]⟩,
   ⟨"openrouter/meta-llama/llama-3.1-8b-instruct:free", "Llama 3.1 8B", true,
    ["text", "chat"]⟩,
   ⟨"openrouter/qwen/qwen3-235b-a22b:free", "Qwen 3.5 72B", true,
    ["text", "chat", "reasoning"]⟩]

/-- `canAccessModel` of `useModelSelection`: an id not found among the
available model options is inaccessible; a found model without
`requiresSubscription` is always accessible; a premium model is accessible
exactly when `subscription?.status === 'active'`. -/
def canAccessModel (availableModels : List ModelOption)
    (subscription : Option SubStatus) (modelId : String) : Bool :=
  match availableModels.find? (fun m => m.id == modelId) with
  | none => false
  | some m =>
    if !m.requiresSubscription then true
    else subscription == some SubStatus.active

/-- The `selectedModel`/`preferredModel` pair of React states. -/
structure SelState where
  selectedModel : String
  preferredModel : String
deriving DecidableEq, Repr

/-- `handleModelChange`: the selection and the stored preference change to
`modelId` only when `canAccessModel(modelId)` holds; otherwise nothing
happens. -/
def handleModelChange (availableModels : List ModelOption)
    (subscription : Option SubStatus) (st : SelState) (modelId : String) : SelState :=
  if canAccessModel availableModels subscription modelId then
    ⟨modelId, modelId⟩
  else st

/-- The preferred-model synchronisation effect of `useModelSelection`: a
truthy, accessible preferred model becomes the selection; otherwise the
selection falls back to
`availableModels.find(m => !m.requiresSubscription)?.id || DEFAULT_MODEL`
and the stored preference is rewritten to that fallback. -/
def syncSelectedModel (availableModels : List ModelOption)
    (subscription : Option SubStatus) (preferredModel : String) : SelState :=
  if jsTruthy (some preferredModel) &&
      canAccessModel availableModels subscription preferredModel then
    ⟨preferredModel, preferredModel⟩
  else
    let defaultModel :=
      jsOr ((availableModels.find? (fun m => !m.requiresSubscription)).map
        (fun m => m.id)) DEFAULT_MODEL
    ⟨defaultModel, defaultModel⟩

/-! ## Operations touching the two access-control tables

The only writers present under `src/` are `generate_activation_code` and the
read-only `check_ai_access`.  The redemption and admin endpoints
(`/api/activate-ai`, `/api/admin/generate-code`,
`/api/admin/activation-codes/{id}` DELETE,
`/api/admin/activation-codes/{id}/suspend`) live in the backend service,
whose Python source is not part of the repository snapshot; they are
modelled from the spec below. -/

/-- Modelled from the spec: the backend `/api/activate-ai` redemption
endpoint is not under `src/`.  Per the spec an activation code is "a
one-time redeemable token granting AI-feature access to a user account",
"claimed at most once by a user", and the access-status row is "mutated by
admin actions or code redemption".  Redemption therefore finds an active,
unclaimed row with the submitted code, marks it claimed by the user at the
current time, and upserts the user's access-status row to `has_access`
with status `active` (the `user_id` UNIQUE constraint makes this an update
when a row exists). -/
def redeem_activation_code (db : DB) (uid : Nat) (code : List Char)
    (now : Nat) (new_row_id : Nat) : Bool × DB :=
  match db.codes.find? (fun c => c.code_value == code && c.is_active && !c.is_claimed) with
  | none => (false, db)
  | some r =>
    let codes' := db.codes.map (fun c =>
      if c.id == r.id then
        { c with is_claimed := true, claimed_by_user_id := some uid,
                 claimed_at := some now }
      else c)
    let access' :=
      if db.access.any (fun a => a.user_id == uid) then
        db.access.map (fun a =>
          if a.user_id == uid then
            { a with has_access := true, status := "active", updated_at := now }
          else a)
      else
        db.access ++ [⟨new_row_id, uid, true, false, false, "active", none, none, now, now⟩]
    (true, { db with codes := codes', access := access' })

/-- Modelled from the spec: the admin suspend endpoint
(`/api/admin/activation-codes/{id}/suspend`) is not under `src/`.  Per the
spec a code is "optionally suspended ... by an admin": the row's active flag
is set to the requested value. -/
def suspend_activation_code (db : DB) (code_id : Nat) (active : Bool) : DB :=
  { db with codes := db.codes.map (fun c =>
      if c.id == code_id then { c with is_active := active } else c) }

/-- Modelled from the spec: the admin delete endpoint
(`/api/admin/activation-codes/{id}` DELETE) is not under `src/`.  Per the
spec a code is "optionally ... deleted by an admin": the row is removed. -/
def delete_activation_code (db : DB) (code_id : Nat) : DB :=
  { db with codes := db.codes.filter (fun c => !(c.id == code_id)) }

/-- Modelled from the spec: the admin access-status mutations ("mutated by
admin actions") are not under `src/`.  An admin action upserts the flags,
status label and message of one user's access-status row, keyed by the
UNIQUE `user_id`. -/
def admin_set_access_status (db : DB) (uid : Nat) (hasAcc susp blocked : Bool)
    (statusLabel : String) (msg : Option String) (now : Nat) (new_row_id : Nat) : DB :=
  { db with access :=
      if db.access.any (fun a => a.user_id == uid) then
        db.access.map (fun a =>
          if a.user_id == uid then
            { a with has_access := hasAcc, is_suspended := susp, is_blocked := blocked,
                     status := statusLabel, message := msg, updated_at := now }
          else a)
      else
        db.access ++
          [⟨new_row_id, uid, hasAcc, susp, blocked, statusLabel, msg, none, now, now⟩] }

/-- The operations that touch `ai_access_status` or `ai_activation_codes`:
the two SQL functions under `src/` and the spec-modelled endpoint actions. -/
inductive TableOp where
  | check : Nat → TableOp
  | generate : Nat → List Char → Nat → Nat → TableOp
  | redeem : Nat → List Char → Nat → Nat → TableOp
  | suspendCode : Nat → Bool → TableOp
  | deleteCode : Nat → TableOp
  | setAccess : Nat → Bool → Bool → Bool → String → Option String → Nat → Nat → TableOp
deriving DecidableEq, Repr

/-- Apply one table-touching operation to the database (discarding the
result value, keeping the state). -/
def applyOp (op : TableOp) (db : DB) : DB :=
  match op with
  | .check uid => (check_ai_access db uid).2
  | .generate admin_id hex new_id now => (generate_activation_code db admin_id hex new_id now).2
  | .redeem uid code now new_row_id => (redeem_activation_code db uid code now new_row_id).2
  | .suspendCode code_id active => suspend_activation_code db code_id active
  | .deleteCode code_id => delete_activation_code db code_id
  | .setAccess uid h s b st m now rid => admin_set_access_status db uid h s b st m now rid

/-- The structural invariant of the two tables: the `id` primary key of
`ai_activation_codes` and the UNIQUE `user_id` of `ai_access_status`. -/
def DBInv (db : DB) : Prop :=
  (db.codes.map (fun c => c.id)).Nodup ∧ (db.access.map (fun a => a.user_id)).Nodup

instance : DecidablePred DBInv := fun db => by
  unfold DBInv
  infer_instance

/-- The single-claim step property: a code row surviving an operation never
goes from claimed back to unclaimed and never changes claimant, so
`is_claimed` transitions at most once from false to true and a code is
claimed by at most one user. -/
def ClaimStep (db db' : DB) : Prop :=
  ∀ c' ∈ db'.codes, ∀ c ∈ db.codes, c'.id = c.id → c.is_claimed = true →
    c'.is_claimed = true ∧ c'.claimed_by_user_id = c.claimed_by_user_id

instance : ∀ db db', Decidable (ClaimStep db db') := fun db db' => by
  unfold ClaimStep
  infer_instance

/-! ## Helper lemmas -/

/-- The result row returned by `check_ai_access` for an admin. -/
def adminResult : CheckResult :=
  ⟨true, false, false, "admin", some "Admin access granted", none⟩

/-- The default result row returned by `check_ai_access` when no
access-status row exists. -/
def noAccessResult : CheckResult :=
  ⟨false, false, false, "no_access",
   some "No AI access. Please use an activation code.", none⟩

lemma check_ai_access_state (db : DB) (uid : Nat) :
    (check_ai_access db uid).2 = db := by
  unfold check_ai_access
  split <;> rfl

lemma codeId_inj {db : DB} (h : DBInv db) :
    ∀ c ∈ db.codes, ∀ c' ∈ db.codes, c.id = c'.id → c = c' := by
  intro c hc c' hc' hid
  exact List.inj_on_of_nodup_map h.1 hc hc' hid

lemma claimStep_refl {db : DB} (h : DBInv db) : ClaimStep db db := by
  intro c' hc' c hc hid hcl
  have := codeId_inj h c' hc' c hc hid
  subst this
  exact ⟨hcl, rfl⟩

/-- Uppercasing a lowercase hexadecimal digit yields an uppercase letter or
a decimal digit. -/
lemma hexDigit_toUpper : ∀ c ∈ hexDigits, (Char.toUpper c).isUpper ∨ (Char.toUpper c).isDigit := by
  decide

/-! ## Claims -/

/-- C1: For every user whose metadata marks them as admin, the AI-access
check grants access unconditionally and without consulting the per-user
access-status state: `check_ai_access` returns `has_access = TRUE`,
`is_suspended = FALSE`, `is_blocked = FALSE` and status `'admin'` (the same
row for every content of `ai_access_status`), and `AIAccessCheck` sets
`hasAIAccess` and renders the protected children with zero requests to the
remote check endpoint. -/
theorem admin_bypass_C1 (db : DB) (uid : Nat) (u : UserMeta)
    (token : Option String) (outcome : FetchOutcome) (ls : LocalStore) (now : Nat)
    (hdb : isAdminUser db uid = true) (hu : u.is_admin = true) :
    (check_ai_access db uid).1 = [adminResult] ∧
    (∀ otherAccess : List AccessRow,
      (check_ai_access ⟨db.users, otherAccess, db.codes⟩ uid).1 = [adminResult]) ∧
    (aiAccessCheck_v2 (some u) token outcome ls now).hasAIAccess = some true ∧
    (aiAccessCheck_v2 (some u) token outcome ls now).fetchCount = 0 ∧
    renderGate (aiAccessCheck_v2 (some u) token outcome ls now).hasAIAccess =
      GateRender.children := by
  have hdb' : ∀ otherAccess : List AccessRow,
      isAdminUser ⟨db.users, otherAccess, db.codes⟩ uid = true := fun _ => hdb
  refine ⟨?_, fun A => ?_, ?_, ?_, ?_⟩ <;>
    simp [check_ai_access, hdb, hdb' _, aiAccessCheck_v2, hu, renderGate, adminResult]

/-- Closed instantiation of `admin_bypass_C1` at a one-admin database. -/
theorem admin_bypass_C1_witness :
    isAdminUser ⟨[⟨1, true⟩], [], []⟩ 1 = true ∧
    (UserMeta.mk true false).is_admin = true ∧
    ((check_ai_access ⟨[⟨1, true⟩], [], []⟩ 1).1 = [adminResult] ∧
     (∀ otherAccess : List AccessRow,
       (check_ai_access ⟨[⟨1, true⟩], otherAccess, []⟩ 1).1 = [adminResult]) ∧
     (aiAccessCheck_v2 (some ⟨true, false⟩) none .httpError ⟨none, none⟩ 0).hasAIAccess = some true ∧
     (aiAccessCheck_v2 (some ⟨true, false⟩) none .httpError ⟨none, none⟩ 0).fetchCount = 0 ∧
     renderGate (aiAccessCheck_v2 (some ⟨true, false⟩) none .httpError ⟨none, none⟩ 0).hasAIAccess =
       GateRender.children) :=
  ⟨by decide, by decide,
   admin_bypass_C1 ⟨[⟨1, true⟩], [], []⟩ 1 ⟨true, false⟩ none .httpError ⟨none, none⟩ 0
     (by decide) (by decide)⟩

/-- C2 counterexample: the claim says the first access check "implicitly
creates that user's access-status record"; running `check_ai_access` for
non-admin user `7`, who has no access-status row, leaves `ai_access_status`
empty — no record is created — while returning the single default row. -/
theorem check_creates_no_row_C2_cex :
    (check_ai_access ⟨[⟨7, false⟩], [], []⟩ 7).2.access = [] ∧
    (check_ai_access ⟨[⟨7, false⟩], [], []⟩ 7).1 = [noAccessResult] := by
  decide

/-- C2 (amended): for every non-admin user with no row in `ai_access_status`,
the access check returns exactly one result row with the default values
(`has_access = FALSE`, `is_suspended = FALSE`, `is_blocked = FALSE`, status
`'no_access'`, the default "No AI access" message) and leaves the database —
in particular the `ai_access_status` table — unchanged: no access-status
record is created by the check. -/
theorem check_default_row_C2 (db : DB) (uid : Nat)
    (hadmin : isAdminUser db uid = false)
    (hnorow : ∀ r ∈ db.access, (r.user_id == uid) = false) :
    check_ai_access db uid = ([noAccessResult], db) := by
  unfold check_ai_access
  rw [hadmin]
  simp only [Bool.false_eq_true, if_false]
  have hfilter : db.access.filter (fun r => r.user_id == uid) = [] :=
    List.filter_eq_nil_iff.mpr (fun r hr => by simp [hnorow r hr])
  have hany : db.access.any (fun r => r.user_id == uid) = false :=
    List.any_eq_false.mpr (fun r hr => by simp [hnorow r hr])
  simp [hfilter, hany, noAccessResult]

/-- Closed instantiation of `check_default_row_C2` at a database holding one
non-admin user and no access rows. -/
theorem check_default_row_C2_witness :
    isAdminUser ⟨[⟨7, false⟩], [], []⟩ 7 = false ∧
    (∀ r ∈ (⟨[⟨7, false⟩], [], []⟩ : DB).access, (r.user_id == 7) = false) ∧
    check_ai_access ⟨[⟨7, false⟩], [], []⟩ 7 = ([noAccessResult], ⟨[⟨7, false⟩], [], []⟩) :=
  ⟨by decide, by decide,
   check_default_row_C2 ⟨[⟨7, false⟩], [], []⟩ 7 (by decide) (by decide)⟩

/-- C7: For every call to `generate_activation_code` with a fresh id, a new
activation-code row is appended in the initial lifecycle state: the returned
code is a 16-character string of uppercase letters and digits, and the row
has `is_active = true`, `is_claimed = false`, no claimant
(`claimed_by_user_id` and `claimed_at` unset) and records the generating
admin's id and the creation timestamp. -/
theorem generate_code_initial_state_C7 (db : DB) (admin_id : Nat)
    (md5hex : List Char) (new_id now : Nat)
    (hlen : md5hex.length = 32)
    (hhex : ∀ c ∈ md5hex, c ∈ hexDigits)
    (hfresh : ∀ c ∈ db.codes, (c.id == new_id) = false) :
    ∃ code : List Char,
      generate_activation_code db admin_id md5hex new_id now =
        (.ok code, { db with codes := db.codes ++
          [⟨new_id, code, true, now, some admin_id, false, none, none⟩] }) ∧
      code.length = 16 ∧
      ∀ c ∈ code, c.isUpper ∨ c.isDigit := by
  refine ⟨(md5hex.take 16).map Char.toUpper, ?_, ?_, ?_⟩
  · unfold generate_activation_code
    have hany : db.codes.any (fun c => c.id == new_id) = false :=
      List.any_eq_false.mpr (fun c hc => by simp [hfresh c hc])
    simp [hany]
  · simp [hlen]
  · intro c hc
    rcases List.mem_map.mp hc with ⟨a, ha, rfl⟩
    exact hexDigit_toUpper a (hhex a (List.mem_of_mem_take ha))

/-- Closed instantiation of `generate_code_initial_state_C7` on an empty
database and a concrete md5 digest. -/
theorem generate_code_initial_state_C7_witness :
    ("0123456789abcdef0123456789abcdef".toList.length = 32) ∧
    (∀ c ∈ "0123456789abcdef0123456789abcdef".toList, c ∈ hexDigits) ∧
    (∀ c ∈ (⟨[], [], []⟩ : DB).codes, (c.id == 5) = false) ∧
    (∃ code : List Char,
      generate_activation_code ⟨[], [], []⟩ 2 "0123456789abcdef0123456789abcdef".toList 5 10 =
        (.ok code, { (⟨[], [], []⟩ : DB) with codes := ([] : List CodeRow) ++
          [⟨5, code, true, 10, some 2, false, none, none⟩] }) ∧
      code.length = 16 ∧
      ∀ c ∈ code, c.isUpper ∨ c.isDigit) :=
  ⟨by decide, by decide, by decide,
   generate_code_initial_state_C7 ⟨[], [], []⟩ 2 "0123456789abcdef0123456789abcdef".toList 5 10
     (by decide) (by decide) (by decide)⟩

/-- C8: evaluation of `execute_sql` at the failing input.  A probe query
reporting how many `USING` values it received shows that a three-element
JSON parameter array arrives as a single bound value (the whole `text[]`
array is bound to `$1`), not as three placeholder bindings; and a query
raising the resulting error (`there is no parameter $2` for a two-placeholder
query) has its error returned as
`jsonb_build_object('error', SQLERRM, 'detail', SQLSTATE)` instead of
propagating. -/
theorem execute_sql_single_binding_C8 :
    execute_sql (fun vs => .ok (Jsonb.num vs.length))
      (Jsonb.arr [.str "a", .str "b", .str "c"]) = Jsonb.num 1 ∧
    execute_sql (fun _ => .error ⟨"there is no parameter $2", "42P02"⟩)
      (Jsonb.arr [.str "a", .str "b"]) =
      Jsonb.obj [("error", .str "there is no parameter $2"), ("detail", .str "42P02")] :=
  ⟨rfl, rfl⟩

/-- C4 counterexample: the claim says that for every render of the
access-gate component for a signed-in non-admin user the access decision is
first read from the local-storage cache and a fresh cached value is used
without a network request.  In the first variant of `AIAccessCheck`, a
non-admin user with a token and a perfectly fresh cached `'true'` still
triggers a network request (whose non-OK response yields no access): the
cache is cleared on mount, not read. -/
theorem cached_decision_C4_cex :
    cacheFresh ⟨some "true", some 100⟩ 100 = true ∧
    (aiAccessCheck_v1 (some ⟨false, false⟩) (some "tok") .httpError
      ⟨some "true", some 100⟩ 100).fetchCount = 1 ∧
    (aiAccessCheck_v1 (some ⟨false, false⟩) (some "tok") .httpError
      ⟨some "true", some 100⟩ 100).hasAIAccess = some false := by
  decide

/-- C4 (amended): only the caching (third) variant of `AIAccessCheck`
behaves as claimed — for any user it first reads the cached boolean and,
when a truthy cached value with a timestamp within the 5-minute cache
duration exists, uses `cached === 'true'` as the decision with no network
request and the cache untouched; the other two variants clear the cache on
mount and always call the remote check endpoint for a signed-in non-admin
user with a session token. -/
theorem cached_decision_C4 (u : UserMeta) (token : Option String) (t : String)
    (outcome : FetchOutcome) (ls : LocalStore) (now : Nat)
    (hfresh : cacheFresh ls now = true)
    (hadmin : u.is_admin = false) :
    aiAccessCheck_v3 (some u) token outcome ls now =
      ⟨some (ls.aiAccessStatus == some "true"), none, ls, 0⟩ ∧
    (aiAccessCheck_v1 (some u) (some t) outcome ls now).fetchCount = 1 ∧
    (aiAccessCheck_v2 (some u) (some t) outcome ls now).fetchCount = 1 := by
  refine ⟨?_, ?_, ?_⟩
  · simp [aiAccessCheck_v3, hfresh]
  · cases outcome <;> simp [aiAccessCheck_v1, hadmin]
  · cases outcome <;> simp [aiAccessCheck_v2, hadmin]

/-- Closed instantiation of `cached_decision_C4` at a fresh `'true'` cache
entry. -/
theorem cached_decision_C4_witness :
    cacheFresh ⟨some "true", some 100⟩ 100 = true ∧
    (UserMeta.mk false false).is_admin = false ∧
    (aiAccessCheck_v3 (some ⟨false, false⟩) (some "tok") .httpError
        ⟨some "true", some 100⟩ 100 =
      ⟨some true, none, ⟨some "true", some 100⟩, 0⟩ ∧
     (aiAccessCheck_v1 (some ⟨false, false⟩) (some "tok") .httpError
        ⟨some "true", some 100⟩ 100).fetchCount = 1 ∧
     (aiAccessCheck_v2 (some ⟨false, false⟩) (some "tok") .httpError
        ⟨some "true", some 100⟩ 100).fetchCount = 1) :=
  ⟨by decide, by decide,
   cached_decision_C4 ⟨false, false⟩ (some "tok") "tok" .httpError
     ⟨some "true", some 100⟩ 100 (by decide) (by decide)⟩

/-- C5: For every access check whose remote call throws or returns a non-OK
response (which presupposes a signed-in non-admin user with a token, the
only path that issues the call), the component falls back to the no-access
state — `hasAIAccess` is `false` and the protected children are not rendered
— after exactly one request (no retry); and every failed activation-form
submission surfaces an error toast after at most one request (no retry). -/
theorem error_fallback_C5 (u : UserMeta) (t : String) (ls : LocalStore) (now : Nat)
    (outcome : FetchOutcome) (ftoken : Option String) (act : ActivateOutcome)
    (hadmin : u.is_admin = false)
    (hout : outcome = .httpError ∨ outcome = .threw)
    (hfail : (activateAI ftoken act).success = false) :
    (aiAccessCheck_v2 (some u) (some t) outcome ls now).hasAIAccess = some false ∧
    renderGate (aiAccessCheck_v2 (some u) (some t) outcome ls now).hasAIAccess =
      GateRender.fallback ∧
    (aiAccessCheck_v2 (some u) (some t) outcome ls now).fetchCount = 1 ∧
    (∃ msg, Toast.error msg ∈ (activateAI ftoken act).toasts) ∧
    (activateAI ftoken act).fetchCount ≤ 1 := by
  have hgate : (aiAccessCheck_v2 (some u) (some t) outcome ls now).hasAIAccess = some false ∧
      (aiAccessCheck_v2 (some u) (some t) outcome ls now).fetchCount = 1 := by
    rcases hout with rfl | rfl <;> simp [aiAccessCheck_v2, hadmin]
  refine ⟨hgate.1, ?_, hgate.2, ?_, ?_⟩
  · simp [renderGate, hgate.1]
  · cases ftoken with
    | none => exact ⟨"An error occurred. Please try again.", by simp [activateAI]⟩
    | some ft =>
      cases act with
      | threw => exact ⟨"An error occurred. Please try again.", by simp [activateAI]⟩
      | ok s m =>
        by_cases hs : (s == some true) = true
        · exact absurd hfail (by simp [activateAI, hs])
        · refine ⟨jsOr m "Failed to activate AI access", ?_⟩
          simp [activateAI, hs]
  · cases ftoken with
    | none => simp [activateAI]
    | some ft =>
      cases act with
      | threw => simp [activateAI]
      | ok s m => simp only [activateAI]; split <;> simp

/-- Closed instantiation of `error_fallback_C5` at a non-OK check response
and a rejected activation response. -/
theorem error_fallback_C5_witness :
    (UserMeta.mk false false).is_admin = false ∧
    (FetchOutcome.httpError = FetchOutcome.httpError ∨
      FetchOutcome.httpError = FetchOutcome.threw) ∧
    (activateAI (some "tok") (.ok (some false) (some "Invalid code"))).success = false ∧
    ((aiAccessCheck_v2 (some ⟨false, false⟩) (some "tok") .httpError ⟨none, none⟩ 0).hasAIAccess =
       some false ∧
     renderGate (aiAccessCheck_v2 (some ⟨false, false⟩) (some "tok") .httpError
       ⟨none, none⟩ 0).hasAIAccess = GateRender.fallback ∧
     (aiAccessCheck_v2 (some ⟨false, false⟩) (some "tok") .httpError ⟨none, none⟩ 0).fetchCount = 1 ∧
     (∃ msg, Toast.error msg ∈
       (activateAI (some "tok") (.ok (some false) (some "Invalid code"))).toasts) ∧
     (activateAI (some "tok") (.ok (some false) (some "Invalid code"))).fetchCount ≤ 1) :=
  ⟨by decide, Or.inl rfl, by decide,
   error_fallback_C5 ⟨false, false⟩ "tok" ⟨none, none⟩ 0 .httpError (some "tok")
     (.ok (some false) (some "Invalid code")) (by decide) (Or.inl rfl) (by decide)⟩

/-- C6: For every activation-form submission that reached the server, a
response whose `success` field is `true` puts the form in the success state
with the success toast; a response whose `success` is false or absent sets
the server's `message` as the displayed error (and error toast), with the
generic `'Failed to activate AI access'` used only when the server provides
no (non-empty) message. -/
theorem activation_form_response_C6 (t : String) (s : Option Bool) (m : Option String) :
    (s = some true →
      activateAI (some t) (.ok s m) =
        ⟨true, none, [.success "AI access activated successfully!"], 1⟩) ∧
    (s ≠ some true → ∀ msg, m = some msg → msg ≠ "" →
      (activateAI (some t) (.ok s m)).error = some msg ∧
      (activateAI (some t) (.ok s m)).toasts = [.error msg]) ∧
    (s ≠ some true → (m = none ∨ m = some "") →
      (activateAI (some t) (.ok s m)).error = some "Failed to activate AI access" ∧
      (activateAI (some t) (.ok s m)).toasts = [.error "Failed to activate AI access"]) := by
  refine ⟨?_, ?_, ?_⟩
  · rintro rfl
    simp [activateAI]
  · rintro hs msg rfl hmsg
    have hs' : (s == some true) = false := by
      cases s with
      | none => rfl
      | some b => cases b <;> simp_all
    simp [activateAI, hs', jsOr, hmsg]
  · rintro hs hm
    have hs' : (s == some true) = false := by
      cases s with
      | none => rfl
      | some b => cases b <;> simp_all
    rcases hm with rfl | rfl <;> simp [activateAI, hs', jsOr]

/-- Closed instantiation of `activation_form_response_C6` at a rejection
carrying a server message. -/
theorem activation_form_response_C6_witness :
    (some false ≠ some true) ∧ ("Invalid code" ≠ "") ∧
    (activateAI (some "tok") (.ok (some false) (some "Invalid code"))).error =
      some "Invalid code" ∧
    (activateAI (some "tok") (.ok (some false) (some "Invalid code"))).toasts =
      [.error "Invalid code"] :=
  ⟨by decide, by decide,
   (activation_form_response_C6 "tok" (some false) (some "Invalid code")).2.1
     (by decide) "Invalid code" rfl (by decide)⟩

/-- C9: For every signed-in non-admin user whose session yields no access
token, the gate components decide no-access locally: `hasAIAccess` becomes
`false` with zero network requests (so the protected children are never
rendered), and `AIAccessCheck` — the component that uses the cache — records
`'false'` in local storage, while `DashboardActivation` leaves the cleared
cache empty. -/
theorem no_token_local_denial_C9 (u : UserMeta) (outcome : FetchOutcome)
    (ls ls' : LocalStore) (now : Nat)
    (hadmin : u.is_admin = false) :
    aiAccessCheck_v2 (some u) none outcome ls now =
      ⟨some false, none, ⟨some "false", some now⟩, 0⟩ ∧
    renderGate (aiAccessCheck_v2 (some u) none outcome ls now).hasAIAccess =
      GateRender.fallback ∧
    dashboardActivation (some u) none outcome ls' =
      ⟨some false, none, ⟨none, none⟩, 0⟩ ∧
    renderGate (dashboardActivation (some u) none outcome ls').hasAIAccess =
      GateRender.fallback := by
  refine ⟨?_, ?_, ?_, ?_⟩ <;>
    simp [aiAccessCheck_v2, dashboardActivation, hadmin, renderGate]

/-- Closed instantiation of `no_token_local_denial_C9` for a tokenless
non-admin user. -/
theorem no_token_local_denial_C9_witness :
    (UserMeta.mk false false).is_admin = false ∧
    (aiAccessCheck_v2 (some ⟨false, false⟩) none .httpError ⟨none, none⟩ 3 =
      ⟨some false, none, ⟨some "false", some 3⟩, 0⟩ ∧
     renderGate (aiAccessCheck_v2 (some ⟨false, false⟩) none .httpError
       ⟨none, none⟩ 3).hasAIAccess = GateRender.fallback ∧
     dashboardActivation (some ⟨false, false⟩) none .httpError ⟨none, none⟩ =
      ⟨some false, none, ⟨none, none⟩, 0⟩ ∧
     renderGate (dashboardActivation (some ⟨false, false⟩) none .httpError
       ⟨none, none⟩).hasAIAccess = GateRender.fallback) :=
  ⟨by decide,
   no_token_local_denial_C9 ⟨false, false⟩ .httpError ⟨none, none⟩ ⟨none, none⟩ 3 (by decide)⟩

/-- C10: `canAccessModel` returns `false` for an id absent from the
available options, `true` for a listed free model regardless of
subscription, and, for a listed premium model, `true` exactly when the
subscription status is `'active'`; `handleModelChange` leaves the selection
unchanged on an inaccessible id, and the preferred-model synchronisation
falls back to a listed free model or to `DEFAULT_MODEL` whenever the stored
preferred model is inaccessible. -/
theorem model_access_C10 (models : List ModelOption) (sub : Option SubStatus)
    (mid : String) (m : ModelOption) (st : SelState) (pref : String) :
    (mid ∉ models.map (fun o => o.id) → canAccessModel models sub mid = false) ∧
    (models.find? (fun o => o.id == mid) = some m → m.requiresSubscription = false →
      canAccessModel models sub mid = true) ∧
    (models.find? (fun o => o.id == mid) = some m → m.requiresSubscription = true →
      (canAccessModel models sub mid = true ↔ sub = some SubStatus.active)) ∧
    (canAccessModel models sub mid = false → handleModelChange models sub st mid = st) ∧
    (canAccessModel models sub pref = false →
      (∃ fm ∈ models, fm.requiresSubscription = false ∧
        (syncSelectedModel models sub pref).selectedModel = fm.id) ∨
      (syncSelectedModel models sub pref).selectedModel = DEFAULT_MODEL) := by
  refine ⟨?_, ?_, ?_, ?_, ?_⟩
  · intro hmem
    have hfind : models.find? (fun o => o.id == mid) = none :=
      List.find?_eq_none.mpr (fun o ho => by
        simp only [beq_iff_eq]
        exact fun h => hmem (List.mem_map.mpr ⟨o, ho, h⟩))
    simp [canAccessModel, hfind]
  · intro hfind hfree
    simp [canAccessModel, hfind, hfree]
  · intro hfind hprem
    simp [canAccessModel, hfind, hprem]
  · intro hacc
    simp [handleModelChange, hacc]
  · intro hacc
    unfold syncSelectedModel
    rw [hacc]
    simp only [Bool.and_false, Bool.false_eq_true, if_false]
    cases hfree : models.find? (fun m => !m.requiresSubscription) with
    | none => right; simp [jsOr]
    | some fm =>
      have hmem := List.mem_of_find?_eq_some hfree
      have hp : fm.requiresSubscription = false := by
        have := List.find?_some hfree
        simpa using this
      by_cases hid : (fm.id == "") = true
      · right; simp [jsOr, hid]
      · left
        exact ⟨fm, hmem, hp, by simp [jsOr, hid]⟩

/-- Closed instantiation of `model_access_C10` on the repository's
`MODEL_OPTIONS` with an inactive subscription: changing to the premium
DeepSeek model is refused and the selection is unchanged. -/
theorem model_access_C10_witness :
    canAccessModel MODEL_OPTIONS (some SubStatus.inactive)
      "openrouter/deepseek/deepseek-chat:free" = false ∧
    handleModelChange MODEL_OPTIONS (some SubStatus.inactive)
      ⟨DEFAULT_MODEL, DEFAULT_MODEL⟩ "openrouter/deepseek/deepseek-chat:free" =
      ⟨DEFAULT_MODEL, DEFAULT_MODEL⟩ :=
  ⟨by decide,
   (model_access_C10 MODEL_OPTIONS (some SubStatus.inactive)
     "openrouter/deepseek/deepseek-chat:free"
     ⟨"openrouter/deepseek/deepseek-chat:free", "DeepSeek Chat", true,
      ["text", "chat", "code", "image_analysis"]⟩
     ⟨DEFAULT_MODEL, DEFAULT_MODEL⟩ DEFAULT_MODEL).2.2.2.1 (by decide)⟩

/-! ## C3: table invariants -/

lemma map_key_of_update {α β : Type} (l : List α) (f : α → α) (key : α → β)
    (hf : ∀ c, key (f c) = key c) : (l.map f).map key = l.map key := by
  rw [List.map_map]
  exact List.map_congr_left (fun a _ => hf a)

lemma nodup_append_singleton {β : Type} (l : List β) (b : β)
    (h : l.Nodup) (hb : b ∉ l) : (l ++ [b]).Nodup := by
  rw [List.nodup_append_comm]
  exact List.nodup_cons.mpr ⟨hb, h⟩

lemma access_upsert_nodup (l : List AccessRow) (uid : Nat) (f : AccessRow → AccessRow)
    (row : AccessRow) (hrow : row.user_id = uid)
    (hf : ∀ a, (f a).user_id = a.user_id)
    (h : (l.map (fun a => a.user_id)).Nodup) :
    ((if l.any (fun a => a.user_id == uid) then l.map f else l ++ [row]).map
        (fun a => a.user_id)).Nodup := by
  by_cases hany : l.any (fun a => a.user_id == uid) = true
  · rw [if_pos hany, map_key_of_update l f _ hf]
    exact h
  · rw [if_neg hany, List.map_append]
    have hany' : l.any (fun a => a.user_id == uid) = false := by
      simpa using hany
    refine nodup_append_singleton _ _ h ?_
    intro hmem
    rcases List.mem_map.mp hmem with ⟨a, ha, hkey⟩
    have ha' := List.any_eq_false.mp hany' a ha
    have hkey' : a.user_id = uid := by
      have h1 : a.user_id = row.user_id := hkey
      rw [h1, hrow]
    exact ha' (by simp [hkey'])

lemma redeem_update_id (r : CodeRow) (uid now : Nat) (c : CodeRow) :
    (if c.id == r.id then
      { c with is_claimed := true, claimed_by_user_id := some uid, claimed_at := some now }
     else c).id = c.id := by
  split <;> rfl

lemma suspend_update_id (cid : Nat) (b : Bool) (c : CodeRow) :
    (if c.id == cid then { c with is_active := b } else c).id = c.id := by
  split <;> rfl

lemma admin_update_user (uid : Nat) (hA s b : Bool) (st : String)
    (m : Option String) (now : Nat) (a : AccessRow) :
    (if a.user_id == uid then
      { a with has_access := hA, is_suspended := s, is_blocked := b,
               status := st, message := m, updated_at := now }
     else a).user_id = a.user_id := by
  split <;> rfl

lemma redeem_access_user (uid now : Nat) (a : AccessRow) :
    (if a.user_id == uid then
      { a with has_access := true, status := "active", updated_at := now }
     else a).user_id = a.user_id := by
  split <;> rfl

/-- C3: the at-most-one-access-row-per-user and the claimed-at-most-once
invariants are preserved by every operation that touches the two tables: if
the `id` key of `ai_activation_codes` and the UNIQUE `user_id` of
`ai_access_status` hold before an operation, they hold after it, and no code
row surviving the operation ever reverts from claimed to unclaimed or
changes its claimant — so `is_claimed` transitions at most once from false
to true and each code has a single `claimed_by_user_id`. -/
theorem tableOps_preserve_invariants_C3 (op : TableOp) (db : DB) (h : DBInv db) :
    DBInv (applyOp op db) ∧ ClaimStep db (applyOp op db) := by
  cases op with
  | check uid =>
    show DBInv (check_ai_access db uid).2 ∧ ClaimStep db (check_ai_access db uid).2
    rw [check_ai_access_state]
    exact ⟨h, claimStep_refl h⟩
  | generate admin_id hex new_id now =>
    show DBInv (generate_activation_code db admin_id hex new_id now).2 ∧
      ClaimStep db (generate_activation_code db admin_id hex new_id now).2
    unfold generate_activation_code
    by_cases hany : db.codes.any (fun c => c.id == new_id) = true
    · rw [if_pos hany]
      exact ⟨h, claimStep_refl h⟩
    · rw [if_neg hany]
      have hany' : db.codes.any (fun c => c.id == new_id) = false := by
        simpa using hany
      have hnotmem : new_id ∉ db.codes.map (fun c => c.id) := by
        intro hmem
        rcases List.mem_map.mp hmem with ⟨c, hc, hcid⟩
        have := List.any_eq_false.mp hany' c hc
        rw [hcid] at this
        simp at this
      refine ⟨⟨?_, h.2⟩, ?_⟩
      · rw [show (({ db with codes := db.codes ++
            [⟨new_id, (hex.take 16).map Char.toUpper, true, now, some admin_id,
              false, none, none⟩] } : DB)).codes = db.codes ++
            [⟨new_id, (hex.take 16).map Char.toUpper, true, now, some admin_id,
              false, none, none⟩] from rfl, List.map_append]
        exact nodup_append_singleton _ _ h.1 hnotmem
      · intro c' hc' c hc hid hcl
        rcases List.mem_append.mp hc' with h1 | h1
        · have := codeId_inj h c' h1 c hc hid
          subst this
          exact ⟨hcl, rfl⟩
        · have hc'eq := List.mem_singleton.mp h1
          subst hc'eq
          have hcid : c.id = new_id := hid.symm
          exact absurd (by simp [hcid]) (List.any_eq_false.mp hany' c hc)
  | redeem uid code now rid =>
    show DBInv (redeem_activation_code db uid code now rid).2 ∧
      ClaimStep db (redeem_activation_code db uid code now rid).2
    cases hfind : db.codes.find?
        (fun c => c.code_value == code && c.is_active && !c.is_claimed) with
    | none =>
      have hstate : (redeem_activation_code db uid code now rid).2 = db := by
        unfold redeem_activation_code
        rw [hfind]
      rw [hstate]
      exact ⟨h, claimStep_refl h⟩
    | some r =>
      have hrmem := List.mem_of_find?_eq_some hfind
      have hrpred := List.find?_some hfind
      have hrunclaimed : r.is_claimed = false := by
        simp only [Bool.and_eq_true, Bool.not_eq_true'] at hrpred
        exact hrpred.2
      have hstate : (redeem_activation_code db uid code now rid).2 =
          { db with
            codes := db.codes.map (fun c =>
              if c.id == r.id then
                { c with is_claimed := true, claimed_by_user_id := some uid,
                         claimed_at := some now }
              else c),
            access := if db.access.any (fun a => a.user_id == uid) then
                db.access.map (fun a =>
                  if a.user_id == uid then
                    { a with has_access := true, status := "active", updated_at := now }
                  else a)
              else db.access ++
                [⟨rid, uid, true, false, false, "active", none, none, now, now⟩] } := by
        unfold redeem_activation_code
        rw [hfind]
      rw [hstate]
      refine ⟨⟨?_, ?_⟩, ?_⟩
      · rw [show ∀ X, (({ db with codes := X, access := _ } : DB)).codes = X from fun _ => rfl]
        rw [map_key_of_update _ _ _ (redeem_update_id r uid now)]
        exact h.1
      · exact access_upsert_nodup db.access uid _ _ rfl (redeem_access_user uid now) h.2
      · intro c' hc' c hc hid hcl
        rcases List.mem_map.mp hc' with ⟨c0, hc0, rfl⟩
        have hid0 : c0.id = c.id := by
          rw [← redeem_update_id r uid now c0, hid]
        have := codeId_inj h c0 hc0 c hc hid0
        subst this
        by_cases hcr : (c0.id == r.id) = true
        · have : c0 = r := codeId_inj h c0 hc0 r hrmem (by simpa using hcr)
          subst this
          rw [hrunclaimed] at hcl
          exact absurd hcl (by simp)
        · constructor
          · rw [if_neg hcr]
            exact hcl
          · rw [if_neg hcr]
  | suspendCode cid b =>
    show DBInv (suspend_activation_code db cid b) ∧
      ClaimStep db (suspend_activation_code db cid b)
    unfold suspend_activation_code
    refine ⟨⟨?_, h.2⟩, ?_⟩
    · rw [show (({ db with codes := db.codes.map (fun c =>
          if c.id == cid then { c with is_active := b } else c) } : DB)).codes =
          db.codes.map (fun c => if c.id == cid then { c with is_active := b } else c)
          from rfl]
      rw [map_key_of_update _ _ _ (suspend_update_id cid b)]
      exact h.1
    · intro c' hc' c hc hid hcl
      rcases List.mem_map.mp hc' with ⟨c0, hc0, rfl⟩
      have hid0 : c0.id = c.id := by
        rw [← suspend_update_id cid b c0, hid]
      have := codeId_inj h c0 hc0 c hc hid0
      subst this
      constructor
      · split <;> exact hcl
      · split <;> rfl
  | deleteCode cid =>
    show DBInv (delete_activation_code db cid) ∧
      ClaimStep db (delete_activation_code db cid)
    unfold delete_activation_code
    refine ⟨⟨?_, h.2⟩, ?_⟩
    · exact List.Nodup.sublist (List.Sublist.map _ (List.filter_sublist _)) h.1
    · intro c' hc' c hc hid hcl
      have hc'mem : c' ∈ db.codes := List.mem_of_mem_filter hc'
      have := codeId_inj h c' hc'mem c hc hid
      subst this
      exact ⟨hcl, rfl⟩
  | setAccess uid hA s b st m now rid =>
    show DBInv (admin_set_access_status db uid hA s b st m now rid) ∧
      ClaimStep db (admin_set_access_status db uid hA s b st m now rid)
    unfold admin_set_access_status
    refine ⟨⟨h.1, ?_⟩, ?_⟩
    · exact access_upsert_nodup db.access uid _ _ rfl
        (admin_update_user uid hA s b st m now) h.2
    · intro c' hc' c hc hid hcl
      have := codeId_inj h c' hc' c hc hid
      subst this
      exact ⟨hcl, rfl⟩

/-- Closed instantiation of `tableOps_preserve_invariants_C3`: generating a
code on the empty database preserves both invariants. -/
theorem tableOps_preserve_invariants_C3_witness :
    DBInv (⟨[], [], []⟩ : DB) ∧
    (DBInv (applyOp (.generate 1 ['a'] 2 3) ⟨[], [], []⟩) ∧
     ClaimStep ⟨[], [], []⟩ (applyOp (.generate 1 ['a'] 2 3) ⟨[], [], []⟩)) :=
  ⟨by decide,
   tableOps_preserve_invariants_C3 (.generate 1 ['a'] 2 3) ⟨[], [], []⟩ (by decide)⟩

end DefomAI
